import Mathlib

/-!
Verification development for the storycodex pipeline.

The Python sources are shallowly embedded: JSON-like runtime values become
the inductive type `Json` (numbers are modelled as integers; none of the
verified behaviour depends on fractional values), Python `dict`s become
association lists whose key order is irrelevant to the semantics, Python
`None` becomes `Json.null`, and functions are translated clause by clause
from `src/storycodex/*.py`.  Stages that call the generation backend are
modelled as functions of an oracle `Nat → String` giving the backend's
successive raw replies, and they return the number of backend calls they
performed; JSON-schema validation and stdlib JSON parsing are external
black boxes and enter as function parameters.
-/

namespace StoryCodex

/-- A JSON-like tree: the values manipulated by the pipeline.  Mirrors the
Python runtime values handled by `merge.py` and `build_context.py`. -/
inductive Json where
  | null : Json
  | bool (b : Bool) : Json
  | num (n : Int) : Json
  | str (s : String) : Json
  | arr (items : List Json) : Json
  | obj (fields : List (String × Json)) : Json

mutual

/-- Structural equality on JSON trees (Python `==` on parsed JSON values;
note that real Python dict equality ignores key order — the embedding keeps
dicts in a fixed representative order, see `merge`). -/
def jsonBeq : Json → Json → Bool
  | .null, .null => true
  | .bool a, .bool b => a == b
  | .num a, .num b => a == b
  | .str a, .str b => a == b
  | .arr xs, .arr ys => jsonBeqList xs ys
  | .obj xs, .obj ys => jsonBeqFields xs ys
  | _, _ => false

def jsonBeqList : List Json → List Json → Bool
  | [], [] => true
  | x :: xs, y :: ys => jsonBeq x y && jsonBeqList xs ys
  | _, _ => false

def jsonBeqFields : List (String × Json) → List (String × Json) → Bool
  | [], [] => true
  | kv :: xs, kw :: ys => kv.1 == kw.1 && jsonBeq kv.2 kw.2 && jsonBeqFields xs ys
  | _, _ => false

end

theorem jsonBeqList_iff (xs ys : List Json)
    (hx : ∀ x ∈ xs, ∀ b, jsonBeq x b = true ↔ x = b) :
    jsonBeqList xs ys = true ↔ xs = ys := by
  induction xs generalizing ys with
  | nil => cases ys <;> simp [jsonBeqList]
  | cons x xs ih =>
    cases ys with
    | nil => simp [jsonBeqList]
    | cons y ys =>
      have hx0 := hx x (by simp) y
      have hrest : ∀ x ∈ xs, ∀ b, jsonBeq x b = true ↔ x = b := by
        intro z hz b; exact hx z (by simp [hz]) b
      simp [jsonBeqList, hx0, ih ys hrest]

theorem jsonBeqFields_iff (xs ys : List (String × Json))
    (hx : ∀ kv ∈ xs, ∀ b, jsonBeq kv.2 b = true ↔ kv.2 = b) :
    jsonBeqFields xs ys = true ↔ xs = ys := by
  induction xs generalizing ys with
  | nil => cases ys <;> simp [jsonBeqFields]
  | cons x xs ih =>
    cases ys with
    | nil => simp [jsonBeqFields]
    | cons y ys =>
      have hx0 := hx x (by simp) y.2
      have hrest : ∀ kv ∈ xs, ∀ b, jsonBeq kv.2 b = true ↔ kv.2 = b := by
        intro z hz b; exact hx z (by simp [hz]) b
      constructor
      · intro h
        simp [jsonBeqFields] at h
        obtain ⟨⟨h1, h2⟩, h3⟩ := h
        have ht := (ih ys hrest).mp h3
        have hv := hx0.mp h2
        cases x; cases y
        simp_all
      · intro he
        injection he with h1 h2
        subst h1; subst h2
        simp [jsonBeqFields, (ih xs hrest).mpr rfl, hx0]

theorem jsonBeq_iff : ∀ (a b : Json), jsonBeq a b = true ↔ a = b := by
  have H : ∀ (n : Nat) (a b : Json), sizeOf a ≤ n → (jsonBeq a b = true ↔ a = b) := by
    intro n
    induction n with
    | zero => intro a b h; cases a <;> simp at h
    | succ n ih =>
      intro a b h
      cases a with
      | null => cases b <;> simp [jsonBeq]
      | bool x => cases b <;> simp [jsonBeq]
      | num x => cases b <;> simp [jsonBeq]
      | str x => cases b <;> simp [jsonBeq]
      | arr xs =>
        cases b <;> simp [jsonBeq]
        case arr ys =>
          apply jsonBeqList_iff
          intro x hx b
          apply ih
          have h1 : sizeOf x < sizeOf xs := List.sizeOf_lt_of_mem hx
          have h2 : sizeOf (Json.arr xs) = 1 + sizeOf xs := by simp
          omega
      | obj fs =>
        cases b <;> simp [jsonBeq]
        case obj gs =>
          apply jsonBeqFields_iff
          intro kv hkv b
          apply ih
          have h1 : sizeOf kv < sizeOf fs := List.sizeOf_lt_of_mem hkv
          have h2 : sizeOf kv.2 < sizeOf kv := by
            cases kv; simp
          have h3 : sizeOf (Json.obj fs) = 1 + sizeOf fs := by simp
          omega
  intro a b
  exact H (sizeOf a) a b (Nat.le_refl _)

instance : DecidableEq Json := fun a b =>
  if h : jsonBeq a b = true then .isTrue ((jsonBeq_iff a b).mp h)
  else .isFalse (fun he => h ((jsonBeq_iff a b).mpr he))

/-- Look up a key in an object's field list (Python `dict` access: the first
binding wins; real dicts have unique keys). -/
def lookupField : List (String × Json) → String → Option Json
  | [], _ => none
  | (k, v) :: rest, key => if k = key then some v else lookupField rest key

/-- Python `value.get(key, default)` on a JSON object; non-dict receivers
yield the default (the callers embedded here guard with `isinstance` or only
reach this with dict values). -/
def jget (j : Json) (key : String) (dflt : Json) : Json :=
  match j with
  | .obj fs => (lookupField fs key).getD dflt
  | _ => dflt

/-- Python truthiness of a JSON-like value (`if locks:` etc.). -/
def jsonTruthy : Json → Bool
  | .null => false
  | .bool b => b
  | .num n => n ≠ 0
  | .str s => s ≠ ""
  | .arr xs => !xs.isEmpty
  | .obj fs => !fs.isEmpty

/- ------------------------------------------------------------------ -/
/- Merge Engine: src/storycodex/merge.py                               -/
/- ------------------------------------------------------------------ -/

/-- `merge_lists` from merge.py: concatenate then keep first occurrences
(`result.append(item)` unless an equal element is already in `result`). -/
def merge_lists (base override : List Json) : List Json :=
  (base ++ override).foldl (fun acc item => if item ∈ acc then acc else acc ++ [item]) []

mutual

/-- `merge` from merge.py: dict/dict merges key-wise, list/list unions
preserving order, anything else is replaced by the override.  The result
dict is represented with the base's keys first (in base order) and the
override-only keys after (in override order); Python dict equality ignores
key order, so this choice of representative is sound. -/
def merge : Json → Json → Json
  | .obj bfs, .obj ofs =>
      .obj (mergeFieldsBase bfs ofs ++ ofs.filter (fun kv => (lookupField bfs kv.1).isNone))
  | .arr bs, .arr os => .arr (merge_lists bs os)
  | _, override => override

/-- The keys present in the base dict, each merged with the override's value
for that key when the override also has it. -/
def mergeFieldsBase : List (String × Json) → List (String × Json) → List (String × Json)
  | [], _ => []
  | (k, v) :: rest, ofs =>
      (match lookupField ofs k with
       | some ov => (k, merge v ov)
       | none => (k, v)) :: mergeFieldsBase rest ofs

end

def nodupList : List Json → Bool
  | [] => true
  | x :: xs => (if x ∈ xs then false else nodupList xs)

def nodupKeys : List String → Bool
  | [] => true
  | k :: ks => (if k ∈ ks then false else nodupKeys ks)

mutual

/-- Decidable check that every sequence in the tree is duplicate-free and
every object has distinct keys (the latter is automatic for values read
from real Python dicts / parsed JSON). -/
def noDupTree : Json → Bool
  | .null => true
  | .bool _ => true
  | .num _ => true
  | .str _ => true
  | .arr xs => nodupList xs && allNoDup xs
  | .obj fs => nodupKeys (fs.map Prod.fst) && allNoDupFields fs

def allNoDup : List Json → Bool
  | [] => true
  | x :: xs => noDupTree x && allNoDup xs

def allNoDupFields : List (String × Json) → Bool
  | [] => true
  | kv :: rest => noDupTree kv.2 && allNoDupFields rest

end

theorem merge_arr_arr (bs os : List Json) :
    merge (.arr bs) (.arr os) = .arr (merge_lists bs os) := by
  simp [merge]

theorem merge_obj_obj (bfs ofs : List (String × Json)) :
    merge (.obj bfs) (.obj ofs) =
      .obj (mergeFieldsBase bfs ofs ++ ofs.filter (fun kv => (lookupField bfs kv.1).isNone)) := by
  simp [merge]

theorem nodupList_iff (xs : List Json) : nodupList xs = true ↔ xs.Nodup := by
  induction xs with
  | nil => simp [nodupList]
  | cons x xs ih => by_cases h : x ∈ xs <;> simp [nodupList, h, ih]

theorem nodupKeys_iff (ks : List String) : nodupKeys ks = true ↔ ks.Nodup := by
  induction ks with
  | nil => simp [nodupKeys]
  | cons k ks ih => by_cases h : k ∈ ks <;> simp [nodupKeys, h, ih]

theorem allNoDup_mem {xs : List Json} (h : allNoDup xs = true) :
    ∀ x ∈ xs, noDupTree x = true := by
  induction xs with
  | nil => simp
  | cons x xs ih =>
    simp [allNoDup] at h
    intro y hy
    rcases List.mem_cons.mp hy with hy | hy
    · exact hy ▸ h.1
    · exact ih h.2 y hy

theorem allNoDupFields_mem {fs : List (String × Json)} (h : allNoDupFields fs = true) :
    ∀ kv ∈ fs, noDupTree kv.2 = true := by
  induction fs with
  | nil => simp
  | cons kv fs ih =>
    simp [allNoDupFields] at h
    intro y hy
    rcases List.mem_cons.mp hy with hy | hy
    · exact hy ▸ h.1
    · exact ih h.2 y hy

theorem lookupField_eq_of_mem {fs : List (String × Json)} {k : String} {v : Json}
    (hnd : (fs.map Prod.fst).Nodup) (hmem : (k, v) ∈ fs) :
    lookupField fs k = some v := by
  induction fs with
  | nil => cases hmem
  | cons kv rest ih =>
    rw [List.map_cons] at hnd
    have h1 := List.nodup_cons.mp hnd
    rcases List.mem_cons.mp hmem with h | h
    · simp [lookupField, ← h]
    · have hk : kv.1 ≠ k := by
        intro he
        exact h1.1 (he ▸ List.mem_map_of_mem Prod.fst h)
      simp [lookupField, hk, ih h1.2 h]

/-- Folding the "append if new" accumulator over elements already present
leaves the accumulator unchanged. -/
theorem foldl_push_of_all_mem (xs acc : List Json) (h : ∀ x ∈ xs, x ∈ acc) :
    xs.foldl (fun acc item => if item ∈ acc then acc else acc ++ [item]) acc = acc := by
  induction xs with
  | nil => rfl
  | cons x xs ih =>
    have hx : x ∈ acc := h x (by simp)
    simp [hx]
    exact ih (fun y hy => h y (by simp [hy]))

/-- Folding the "append if new" accumulator over fresh, duplicate-free
elements appends exactly those elements. -/
theorem foldl_push_of_nodup (xs : List Json) (hnd : xs.Nodup) :
    ∀ acc : List Json, (∀ x ∈ xs, x ∉ acc) →
      xs.foldl (fun acc item => if item ∈ acc then acc else acc ++ [item]) acc = acc ++ xs := by
  induction xs with
  | nil => intro acc _; simp
  | cons x xs ih =>
    intro acc hfresh
    have hx : x ∉ acc := hfresh x (by simp)
    simp [List.nodup_cons] at hnd
    have step : ∀ y ∈ xs, y ∉ acc ++ [x] := by
      intro y hy
      simp
      constructor
      · exact hfresh y (by simp [hy])
      · intro he; exact hnd.1 (he ▸ hy)
    simp [hx]
    rw [ih hnd.2 (acc ++ [x]) step]
    simp

theorem merge_lists_self (xs : List Json) (hnd : nodupList xs = true) :
    merge_lists xs xs = xs := by
  have hn : xs.Nodup := (nodupList_iff xs).mp hnd
  unfold merge_lists
  rw [List.foldl_append]
  rw [foldl_push_of_nodup xs hn [] (by simp)]
  simp
  exact foldl_push_of_all_mem xs xs (fun x hx => hx)

theorem mergeFieldsBase_self (sub fs : List (String × Json))
    (hlk : ∀ kv ∈ sub, lookupField fs kv.1 = some kv.2)
    (hm : ∀ kv ∈ sub, merge kv.2 kv.2 = kv.2) :
    mergeFieldsBase sub fs = sub := by
  induction sub with
  | nil => rfl
  | cons kv rest ih =>
    have h1 : lookupField fs kv.1 = some kv.2 := hlk kv (by simp)
    have h2 : merge kv.2 kv.2 = kv.2 := hm kv (by simp)
    have hrest := ih (fun y hy => hlk y (by simp [hy])) (fun y hy => hm y (by simp [hy]))
    simp [mergeFieldsBase, h1, h2, hrest]

/-- Auxiliary strong-induction form of the idempotence theorem. -/
theorem merge_self_aux :
    ∀ (n : Nat) (x : Json), sizeOf x ≤ n → noDupTree x = true → merge x x = x := by
  intro n
  induction n with
  | zero => intro x h; cases x <;> simp at h
  | succ n ih =>
    intro x hsz hnd
    cases x with
    | null => simp [merge]
    | bool b => simp [merge]
    | num m => simp [merge]
    | str s => simp [merge]
    | arr xs =>
      simp [noDupTree] at hnd
      rw [merge_arr_arr, merge_lists_self xs hnd.1]
    | obj fs =>
      simp [noDupTree] at hnd
      have hkeys : (fs.map Prod.fst).Nodup := (nodupKeys_iff _).mp hnd.1
      have hlk : ∀ kv ∈ fs, lookupField fs kv.1 = some kv.2 := by
        intro kv hkv
        exact lookupField_eq_of_mem hkeys (by simpa using hkv)
      have hm : ∀ kv ∈ fs, merge kv.2 kv.2 = kv.2 := by
        intro kv hkv
        apply ih
        · have h1 : sizeOf kv < sizeOf fs := List.sizeOf_lt_of_mem hkv
          have h2 : sizeOf kv.2 < sizeOf kv := by cases kv; simp
          have h3 : sizeOf (Json.obj fs) = 1 + sizeOf fs := by simp
          omega
        · exact allNoDupFields_mem hnd.2 kv hkv
      rw [merge_obj_obj, mergeFieldsBase_self fs fs hlk hm]
      have hfil : fs.filter (fun kv => (lookupField fs kv.1).isNone) = [] := by
        apply List.filter_eq_nil_iff.mpr
        intro kv hkv
        simp [hlk kv hkv]
      rw [hfil]
      simp

/-- C6 (counterexample): the claim `merge(x, x) == x` for every JSON-like
tree fails on `x = [1, 1]`: `merge_lists` deduplicates, so the merge of the
list with itself is `[1]`, not `[1, 1]`. -/
theorem merge_not_idempotent_on_dup_list :
    merge (.arr [.num 1, .num 1]) (.arr [.num 1, .num 1]) = .arr [.num 1] ∧
      merge (.arr [.num 1, .num 1]) (.arr [.num 1, .num 1]) ≠ .arr [.num 1, .num 1] := by
  constructor
  · rw [merge_arr_arr]
    simp [merge_lists]
  · rw [merge_arr_arr]
    simp [merge_lists]

/-- C6 (amended): `merge(x, x) == x` holds for every JSON-like tree in
which every sequence is duplicate-free and every mapping has distinct keys
(the latter is automatic for parsed JSON); trees containing a sequence with
duplicate elements are deduplicated by `merge_lists` and violate the law. -/
theorem merge_idempotent (x : Json) (h : noDupTree x = true) : merge x x = x :=
  merge_self_aux (sizeOf x) x (Nat.le_refl _) h

/-- Witness for C6's amended theorem: a concrete duplicate-free tree on
which the hypothesis holds and merge is the identity. -/
theorem merge_idempotent_witness :
    noDupTree (Json.obj [("a", .arr [.num 1, .num 2]), ("b", .str "t")]) = true ∧
      merge (Json.obj [("a", .arr [.num 1, .num 2]), ("b", .str "t")])
        (Json.obj [("a", .arr [.num 1, .num 2]), ("b", .str "t")]) =
        Json.obj [("a", .arr [.num 1, .num 2]), ("b", .str "t")] := by
  have h : noDupTree (Json.obj [("a", .arr [.num 1, .num 2]), ("b", .str "t")]) = true := by
    simp [noDupTree, allNoDupFields, allNoDup, nodupList, nodupKeys]
  exact ⟨h, merge_idempotent _ h⟩

/- ------------------------------------------------------------------ -/
/- Context Assembly: src/storycodex/build_context.py                   -/
/- ------------------------------------------------------------------ -/

/-- Python `str(value)` for the scalar values the pipeline stringifies
(lock ids/statements, keyword entries, constraint items).  Containers get
an abstract textual form; no verified claim stringifies a container. -/
def pyStr : Json → String
  | .null => "None"
  | .bool true => "True"
  | .bool false => "False"
  | .num n => toString n
  | .str s => s
  | .arr _ => "[container]"
  | .obj _ => "[container]"

/-- `ensure_list` from build_context.py: a list is stringified elementwise,
`None` becomes the empty list, any other value becomes a one-element list. -/
def ensure_list : Json → List String
  | .arr xs => xs.map pyStr
  | .null => []
  | v => [pyStr v]

/-- `append_unique` from build_context.py: keep the first occurrence of
each element of `base ++ extra`. -/
def append_unique {α : Type} [DecidableEq α] (base extra : List α) : List α :=
  (base ++ extra).foldl (fun result item => if item ∈ result then result else result ++ [item]) []

/-- `cap_rules` from build_context.py. -/
def cap_rules (rules : List String) (limit : Nat) : List String :=
  rules.take limit

/-- The values of a JSON list; anything else reads as the empty list (the
callers guard with `isinstance(..., list)`). -/
def jarr : Json → List Json
  | .arr xs => xs
  | _ => []

/-- Read a string-valued field with a default.  The fields read this way
(`location_id`, `time` defaults, ...) are strings in every schema-valid
artifact; a non-string value would crash the original at its first string
method call, and reads as the default here. -/
def jgetStr (j : Json) (key : String) (dflt : String) : String :=
  match jget j key (.str dflt) with
  | .str s => s
  | _ => dflt

/-- Python decision `needle in hay` on strings (substring containment). -/
def listPrefixB : List Char → List Char → Bool
  | [], _ => true
  | _ :: _, [] => false
  | a :: as, b :: bs => a == b && listPrefixB as bs

def listInfixB (needle : List Char) : List Char → Bool
  | [] => listPrefixB needle []
  | b :: bs => listPrefixB needle (b :: bs) || listInfixB needle bs

def pyInSubstr (needle hay : String) : Bool :=
  listInfixB needle.toList hay.toList

/-- Python `text.strip()` (default whitespace stripping), computed over the
character list so that proofs can evaluate it on concrete strings. -/
def pyStrip (s : String) : String :=
  ⟨((s.toList.dropWhile Char.isWhitespace).reverse.dropWhile Char.isWhitespace).reverse⟩

/-- Python `value.lower()` on a field expected to hold a string; the
original raises `AttributeError` on non-strings, which never occurs for
schema-valid artifacts — non-strings stringify first here. -/
def jLower : Json → String
  | .str s => s.toLower
  | v => (pyStr v).toLower

/-- Ring A of the context packet, as assembled by `build_ringA`.  Values
that the source copies verbatim from artifacts stay `Json`; values the
source itself builds as strings are typed `String`. -/
structure RingA where
  premise : Json
  tone : List Json
  pov : Json
  tense : Json
  global_constraints : List String
  style_rules : List String

structure LocationRef where
  id : String
  name : String
  constraints : List Json

structure Setting where
  location : LocationRef
  time : Json
  mood_tags : List String

structure Character where
  id : Json
  name : Json
  role : Json
  voice_tics : List String
  current_state : Json
  wants_now : List String
  taboos : List String

structure Lock where
  id : String
  statement : String
  severity : String
  tags : List String

structure RingB where
  scene_goal : Json
  setting : Setting
  cast : List Character
  beats : List Json
  continuity_locks : List Lock

structure GlossaryEntry where
  term : Json
  definition : Json

structure RingC where
  prior_scene_summary : String
  open_threads : List String
  relevant_facts : List String
  glossary : List GlossaryEntry

/-- The optional-artifact table built by `build_context`; each field is the
artifact's `data` entry, `null` when the artifact is absent (Python
`optional_artifacts.get(key, \x7b\x7d).get("data")` returning `None`). -/
structure OptionalArtifacts where
  characters : Json
  character_state : Json
  world : Json

/-- `build_ringA` from build_context.py. -/
def build_ringA (story_spec : Json) (plot_intent : Json) : RingA :=
  let loglineRaw := jget story_spec "logline" .null
  let premise := if jsonTruthy loglineRaw then loglineRaw else jget story_spec "title" (.str "")
  let constraintsJ := jget story_spec "constraints" (.obj [])
  let must := jarr (jget constraintsJ "must" (.arr []))
  let must_not := jarr (jget constraintsJ "must_not" (.arr []))
  let base_constraints :=
    must.map (fun item => "MUST " ++ pyStr item) ++
      must_not.map (fun item => "MUST NOT " ++ pyStr item)
  let intent := jget plot_intent "plot_intent" (.obj [])
  let intent_constraints :=
    if jsonTruthy plot_intent then
      (match jget intent "core_arc" .null with
       | .str s => if pyStrip s ≠ "" then ["Core arc: " ++ pyStrip s] else []
       | _ => []) ++
      (match jget intent "central_question" .null with
       | .str s => if pyStrip s ≠ "" then ["Central question: " ++ pyStrip s] else []
       | _ => [])
    else []
  let toneRaw := jget story_spec "tone" (.arr [])
  let tone := if jsonTruthy toneRaw then toneRaw else .arr []
  let pov := jget story_spec "pov" (.str "first")
  let tense := jget story_spec "tense" (.str "past")
  let base_rules :=
    ["Write in " ++ pyStr tense ++ " tense.",
     "Use " ++ pyStr pov ++ " POV.",
     "Keep paragraphs concise.",
     "Favor concrete sensory details.",
     "Maintain tonal consistency."]
  let tone_rules :=
    match tone with
    | .arr (t :: ts) => ["Tone: " ++ String.intercalate ", " ((t :: ts).map pyStr)]
    | _ => []
  let theme_rules :=
    if jsonTruthy plot_intent then
      (jarr (jget intent "themes" .null)).foldr
        (fun theme acc =>
          (match theme with
           | .str s => if pyStrip s ≠ "" then ["Theme: " ++ pyStrip s] else []
           | _ => []) ++ acc) []
    else []
  { premise := premise
    tone := jarr tone
    pov := pov
    tense := tense
    global_constraints := base_constraints ++ intent_constraints
    style_rules := base_rules ++ tone_rules ++ theme_rules }

/-- A rule of the form `prefix + value.strip()` appended only when the
value is a non-blank string (the recurring pattern of
`build_style_rules_from_profile`). -/
def strOptRule (v : Json) (head : String) : List String :=
  match v with
  | .str s => if pyStrip s ≠ "" then [head ++ pyStrip s] else []
  | _ => []

/-- `build_style_rules_from_profile` from build_context.py. -/
def build_style_rules_from_profile (profile : Json) : List String :=
  let intentRules := strOptRule (jget profile "intent" .null) "Intent: "
  let sx := jget profile "syntax" (.obj [])
  let sxRules :=
    strOptRule (jget sx "sentence_rhythm" .null) "Sentence rhythm: " ++
      strOptRule (jget sx "paragraphing" .null) "Paragraphing: "
  let sensory := jget profile "sensory" (.obj [])
  let priority_order := ensure_list (jget sensory "priority_order" (.arr []))
  let motifs := ensure_list (jget sensory "motifs" (.arr []))
  let sensoryRules :=
    (if priority_order ≠ [] then ["Sensory priority: " ++ String.intercalate " > " priority_order]
     else []) ++
      (if motifs ≠ [] then ["Motifs: " ++ String.intercalate ", " motifs] else [])
  let dlg := jget profile "dialogue" (.obj [])
  let dlgRules :=
    strOptRule (jget dlg "subtext_rule" .null) "Dialogue subtext: " ++
      strOptRule (jget dlg "style" .null) "Dialogue style: "
  let diction := jget profile "diction" (.obj [])
  let dictionRules :=
    strOptRule (jget diction "register" .null) "Diction register: " ++
      strOptRule (jget diction "note" .null) "Diction note: "
  let oc := jget profile "output_controls" (.obj [])
  let parts :=
    ["metaphor_density", "exposition_throttle", "violence", "gore"].foldr
      (fun key acc =>
        (match jget oc key .null with
         | .str s => if pyStrip s ≠ "" then [key ++ "=" ++ pyStrip s] else []
         | _ => []) ++ acc) []
  let ocRules := if parts ≠ [] then ["Output controls: " ++ String.intercalate ", " parts] else []
  let he := jget profile "horror_engine" (.obj [])
  let principles := (ensure_list (jget he "principles" (.arr []))).take 5
  let heRules := (principles.filter (· ≠ "")).map (fun item => "Horror principle: " ++ item)
  let voice := jget profile "character_voice" (.obj [])
  let habits := (ensure_list (jget voice "habits" (.arr []))).take 5
  let voiceRules := (habits.filter (· ≠ "")).map (fun item => "Voice habit: " ++ item)
  let unreliability := (ensure_list (jget voice "unreliability" (.arr []))).take 5
  let unrelRules := (unreliability.filter (· ≠ "")).map (fun item => "Unreliability: " ++ item)
  intentRules ++ sxRules ++ sensoryRules ++ dlgRules ++ dictionRules ++ ocRules ++
    heRules ++ voiceRules ++ unrelRules

/-- `apply_style_profile` from build_context.py. -/
def apply_style_profile (ringA : RingA) (profile : Json) : RingA :=
  let tone := ensure_list (jget profile "tone" (.arr []))
  let newTone := append_unique ringA.tone (tone.map Json.str)
  let scene_rules := jget profile "scene_rules" (.obj [])
  let must_include := ensure_list (jget scene_rules "must_include" (.arr []))
  let must_not := ensure_list (jget scene_rules "must_not" (.arr []))
  let horror_engine := jget profile "horror_engine" (.obj [])
  let taboos := ensure_list (jget horror_engine "taboos" (.arr []))
  let c1 := append_unique ringA.global_constraints
    ((must_include.filter (fun item => item ≠ "")).map (fun item => "MUST: " ++ item))
  let c2 := append_unique c1
    ((must_not.filter (fun item => item ≠ "")).map (fun item => "MUST NOT: " ++ item))
  let c3 := append_unique c2
    ((taboos.filter (fun item => item ≠ "")).map (fun item => "MUST NOT: " ++ item))
  let new_rules := build_style_rules_from_profile profile
  { ringA with
      tone := newTone
      global_constraints := c3
      style_rules := cap_rules (append_unique ringA.style_rules new_rules) 20 }

/-- `match_character` from build_context.py. -/
def match_character (entry : Json) (name : String) : Bool :=
  match entry with
  | .obj fs =>
      let entry_id := (pyStr ((lookupField fs "id").getD (.str ""))).toLower
      let entry_name := (pyStr ((lookupField fs "name").getD (.str ""))).toLower
      let target := name.toLower
      target == entry_id || target == entry_name
  | _ => false

def scanCharacters (entries : List Json) (name : String) : Option Json :=
  match entries with
  | [] => none
  | e :: rest => if match_character e name then some e else scanCharacters rest name

/-- `find_character` from build_context.py: scan a bare list, then the
`characters` list, then the `items` list. -/
def find_character (data : Json) (name : String) : Option Json :=
  match data with
  | .arr entries => scanCharacters entries name
  | .obj fs =>
      (match lookupField fs "characters" with
       | some (.arr entries) => scanCharacters entries name
       | _ => none).orElse
        (fun _ =>
          match lookupField fs "items" with
          | some (.arr entries) => scanCharacters entries name
          | _ => none)
  | _ => none

/-- `find_character_state` from build_context.py; Python `None` returns
become `Json.null` (the caller only tests truthiness). -/
def find_character_state (state_data : Json) (entry : Json) : Json :=
  match state_data with
  | .obj sfs =>
      (match lookupField sfs "characters" with
       | some (.obj smap) =>
           (match jget entry "id" .null with
            | .str entry_id =>
                (match lookupField smap entry_id with
                 | some (.obj m) => (lookupField m "current_state").getD .null
                 | _ => .null)
            | _ => .null)
       | _ => .null)
  | _ => .null

/-- `build_cast` from build_context.py: non-string cast names are skipped;
a found (truthy) character record is projected, its current state
optionally overridden from the character-state artifact; an unmatched name
yields a stub record. -/
def build_cast (cast_names : List Json) (arts : OptionalArtifacts) : List Character :=
  cast_names.filterMap (fun nameJ =>
    match nameJ with
    | .str name =>
        (match find_character arts.characters name with
         | some entry =>
             if jsonTruthy entry then
               let cs0 := jget entry "current_state" (.str "")
               let cs :=
                 if jsonTruthy arts.character_state then
                   (let ov := find_character_state arts.character_state entry
                    if jsonTruthy ov then ov else cs0)
                 else cs0
               some { id := jget entry "id" (.str name)
                      name := jget entry "name" (.str name)
                      role := jget entry "role" (.str "")
                      voice_tics := ensure_list (jget entry "voice_tics" (.arr []))
                      current_state := cs
                      wants_now := ensure_list (jget entry "wants_now" (.arr []))
                      taboos := ensure_list (jget entry "taboos" (.arr [])) }
             else
               some { id := .str name, name := .str name, role := .str "", voice_tics := [],
                      current_state := .str "", wants_now := [], taboos := [] }
         | none =>
             some { id := .str name, name := .str name, role := .str "", voice_tics := [],
                    current_state := .str "", wants_now := [], taboos := [] })
    | _ => none)

/-- `normalize_lock` from build_context.py. -/
def normalize_lock (lock : Json) : Lock :=
  match lock with
  | .obj fs =>
      let severity :=
        match lookupField fs "severity" with
        | some (.str s) => if s = "must" || s = "should" then s else "should"
        | some _ => "should"
        | none => "should"
      { id := pyStr ((lookupField fs "id").getD ((lookupField fs "lock_id").getD (.str "unknown")))
        statement := pyStr ((lookupField fs "statement").getD ((lookupField fs "text").getD (.str "")))
        severity := severity
        tags := ensure_list ((lookupField fs "tags").getD (.arr [])) }
  | v => { id := "unknown", statement := pyStr v, severity := "should", tags := [] }

/-- The "accept a bare list, or an object wrapping the list under a primary
key or under `items`" normalization shared by the lock and fact filters. -/
def wrappedItems (data : Json) (primaryKey : String) : List Json :=
  match data with
  | .arr xs => xs
  | .obj fs =>
      (match lookupField fs primaryKey with
       | some (.arr xs) => xs
       | _ =>
         match lookupField fs "items" with
         | some (.arr xs) => xs
         | _ => [])
  | _ => []

/-- The keyword set of `select_relevant_locks`: lowercased cast names plus
the lowercased location id when non-empty.  The Python `set` is modelled as
a list: only emptiness and existential membership are consumed. -/
def lock_keywords (cast : List Json) (location_id : String) : List String :=
  cast.map (fun item => (pyStr item).toLower) ++
    (if location_id ≠ "" then [location_id.toLower] else [])

def lockLoop (keywords : List String) : List Json → List Lock
  | [] => []
  | lock :: rest =>
      let normalized := normalize_lock lock
      if keywords.isEmpty then normalized :: lockLoop keywords rest
      else if keywords.any (fun kw => pyInSubstr kw normalized.statement.toLower) then
        normalized :: lockLoop keywords rest
      else lockLoop keywords rest

/-- `select_relevant_locks` from build_context.py. -/
def select_relevant_locks (locks : Json) (cast : List Json) (location_id : String) : List Lock :=
  lockLoop (lock_keywords cast location_id) (wrappedItems locks "locks")

def factLoop (keywords : List String) : List Json → List String
  | [] => []
  | item :: rest =>
      match item with
      | .str s =>
          if keywords.any (fun kw => pyInSubstr kw s.toLower) then s :: factLoop keywords rest
          else factLoop keywords rest
      | .obj fs =>
          let statement := pyStr ((lookupField fs "statement").getD ((lookupField fs "text").getD (.str "")))
          if keywords.any (fun kw => pyInSubstr kw statement.toLower) then
            statement :: factLoop keywords rest
          else factLoop keywords rest
      | _ => factLoop keywords rest

/-- The keyword set of `select_relevant_facts`: lowercased cast-record
names from ring B plus the lowercased location id when non-empty. -/
def fact_keywords (ringB : RingB) : List String :=
  ringB.cast.map (fun entry => jLower entry.name) ++
    (if ringB.setting.location.id ≠ "" then [ringB.setting.location.id.toLower] else [])

/-- `select_relevant_facts` from build_context.py: string facts kept
verbatim, object facts reduced to their statement text, everything else
skipped; unlike the lock filter there is no empty-keyword fallback. -/
def select_relevant_facts (facts : Json) (ringB : RingB) : List String :=
  factLoop (fact_keywords ringB) (wrappedItems facts "facts")

/-- `build_ringB` from build_context.py.  The location record is built
directly from the plan's `location_id`: its `name` is the same id and its
`constraints` list is the literal empty list. -/
def build_ringB (scene_plan scene_beats : Json) (arts : OptionalArtifacts) (locks : Json) : RingB :=
  let settingJ := jget scene_plan "setting" (.obj [])
  let location_id := jgetStr settingJ "location_id" ""
  let time := jget settingJ "time" (.str "")
  let mood_tags := ensure_list (jget settingJ "mood_tags" (.arr []))
  let cast_names := jarr (jget scene_plan "cast" (.arr []))
  let characters := build_cast cast_names arts
  let beats := (jarr (jget scene_beats "beats" (.arr []))).filter
    (fun b => match b with | .obj _ => true | _ => false)
  let continuity_locks :=
    if jsonTruthy locks then select_relevant_locks locks cast_names location_id else []
  { scene_goal := jget scene_plan "goal" (.str "")
    setting := { location := { id := location_id, name := location_id, constraints := [] }
                 time := time
                 mood_tags := mood_tags }
    cast := characters
    beats := beats
    continuity_locks := continuity_locks }

/-- `empty_ringA` from build_context.py. -/
def empty_ringA : RingA :=
  { premise := .str "", tone := [], pov := .str "first", tense := .str "past",
    global_constraints := [], style_rules := [] }

/-- `empty_ringB` from build_context.py. -/
def empty_ringB : RingB :=
  { scene_goal := .str ""
    setting := { location := { id := "", name := "", constraints := [] }
                 time := .str ""
                 mood_tags := [] }
    cast := [], beats := [], continuity_locks := [] }

/-- `empty_ringC` from build_context.py. -/
def empty_ringC : RingC :=
  { prior_scene_summary := "N/A", open_threads := [], relevant_facts := [], glossary := [] }

/-- `apply_include` from build_context.py (the parameter is named
`include` in the source). -/
def apply_include (inc : String) (ringA : RingA) (ringB : RingB) (ringC : RingC) :
    RingA × RingB × RingC :=
  if inc = "all" then (ringA, ringB, ringC)
  else if inc = "ringA" then (ringA, empty_ringB, empty_ringC)
  else if inc = "ringB" then (empty_ringA, ringB, empty_ringC)
  else if inc = "ringC" then (empty_ringA, empty_ringB, ringC)
  else (ringA, ringB, ringC)

/- ------------------------------------------------------------------ -/
/- Generation-protocol stage models                                    -/
/- plan_spine.py, plan_beats.py, write_scene.py, check_continuity.py   -/
/- ------------------------------------------------------------------ -/

/-- `parse_and_validate` from plan_spine.py.  Stdlib JSON parsing (after
fence stripping) and jsonschema validation are external black boxes and
enter as the parameters `jsonParse` and `schemaErrors`; both a parse
failure and any schema error collapse to `None`. -/
def parse_and_validate_spine (jsonParse : String → Option Json)
    (schemaErrors : Json → List String) (content : String) : Option Json :=
  match jsonParse content with
  | none => none
  | some d => if schemaErrors d = [] then some d else none

/-- `plan_spine` from plan_spine.py over the artifact-existence flags and
the backend oracle (successive `llm.chat` replies); the second component
counts backend calls.  `.ok none` is the silent cache skip (`return
None`).  The optional plot-intent read has no observable effect on this
control flow and is omitted. -/
def plan_spine_stage (spineExists force specExists : Bool)
    (jsonParse : String → Option Json) (schemaErrors : Json → List String)
    (oracle : Nat → String) : Except String (Option Json) × Nat :=
  if spineExists && !force then (.ok none, 0)
  else if !specExists then (.error "Missing story spec", 0)
  else
    match parse_and_validate_spine jsonParse schemaErrors (oracle 0) with
    | some spine => (.ok (some spine), 1)
    | none =>
        match parse_and_validate_spine jsonParse schemaErrors (oracle 1) with
        | some spine => (.ok (some spine), 2)
        | none => (.error "LLM response could not be repaired into valid JSON", 2)

/-- `parse_and_validate` from plan_beats.py: a parse failure reports the
single message "Response is not valid JSON", a schema failure reports the
collected validator messages, success reports no errors.  The Python
`None` payload is `Json.null`; reply-wrapper extraction and fence
stripping are folded into `jsonParse`. -/
def parse_and_validate_beats (jsonParse : String → Option Json)
    (schemaErrors : Json → List String) (content : String) : Json × List String :=
  match jsonParse content with
  | none => (.null, ["Response is not valid JSON"])
  | some payload =>
      match schemaErrors payload with
      | [] => (payload, [])
      | errs => (.null, errs)

/-- `plan_beats` from plan_beats.py (control flow of the generation
section, with cache and prerequisite checks). -/
def plan_beats_stage (beatsExists force specExists planExists : Bool)
    (jsonParse : String → Option Json) (schemaErrors : Json → List String)
    (oracle : Nat → String) : Except String (Option Json) × Nat :=
  if beatsExists && !force then (.ok none, 0)
  else if !specExists then (.error "Missing story spec", 0)
  else if !planExists then (.error "Missing scene plan", 0)
  else
    let r1 := parse_and_validate_beats jsonParse schemaErrors (oracle 0)
    if r1.2 = [] then (.ok (some r1.1), 1)
    else
      let r2 := parse_and_validate_beats jsonParse schemaErrors (oracle 1)
      if r2.2 = [] then (.ok (some r2.1), 2)
      else (.error "LLM response could not be repaired into valid JSON", 2)

/-- `generate_report` from check_continuity.py: the reply is parsed, and a
non-JSON reply raises immediately — no repair call happens here. -/
def generate_report (parse : String → Option Json) (reply : String) : Except String Json :=
  match parse reply with
  | none => .error "Continuity report is not valid JSON"
  | some j => .ok j

/-- `generate_patch` from check_continuity.py: likewise immediately fatal
on a non-JSON reply. -/
def generate_patch (parse : String → Option Json) (reply : String) : Except String Json :=
  match parse reply with
  | none => .error "Patch plan is not valid JSON"
  | some j => .ok j

/-- `repair_json` from check_continuity.py: one repair call; its own
non-JSON reply is fatal. -/
def repair_json (parse : String → Option Json) (reply : String) : Except String Json :=
  match parse reply with
  | none => .error "Repair output is not valid JSON"
  | some j => .ok j

/-- The continuity-report section of `check_continuity` (lines 56-62):
generate, schema-validate, repair once on schema errors only. -/
def continuity_report_phase (parse : String → Option Json)
    (validateReport : Json → List String) (oracle : Nat → String) :
    Except String Json × Nat :=
  match generate_report parse (oracle 0) with
  | .error e => (.error e, 1)
  | .ok report =>
      if validateReport report = [] then (.ok report, 1)
      else
        match repair_json parse (oracle 1) with
        | .error e => (.error e, 2)
        | .ok repaired =>
            if validateReport repaired = [] then (.ok repaired, 2)
            else (.error "Continuity report failed validation", 2)

/-- The patch section of `check_continuity` (lines 64-70). -/
def continuity_patch_phase (parse : String → Option Json)
    (validatePatch : Json → List String) (oracle : Nat → String) :
    Except String Json × Nat :=
  match generate_patch parse (oracle 0) with
  | .error e => (.error e, 1)
  | .ok patch =>
      if validatePatch patch = [] then (.ok patch, 1)
      else
        match repair_json parse (oracle 1) with
        | .error e => (.error e, 2)
        | .ok repaired =>
            if validatePatch repaired = [] then (.ok repaired, 2)
            else (.error "Patch plan failed validation", 2)

/-- `check_continuity` from check_continuity.py: cache check, prerequisite
checks, then the report and patch phases in sequence over one shared
oracle of backend replies. -/
def check_continuity_stage (reportExists patchExists force contextExists proseExists : Bool)
    (parse : String → Option Json) (validateReport validatePatch : Json → List String)
    (oracle : Nat → String) : Except String (Option (Json × Json)) × Nat :=
  if reportExists && patchExists && !force then (.ok none, 0)
  else if !contextExists then (.error "Missing context", 0)
  else if !proseExists then (.error "Missing scene prose", 0)
  else
    match continuity_report_phase parse validateReport oracle with
    | (.error e, n) => (.error e, n)
    | (.ok report, n) =>
        match continuity_patch_phase parse validatePatch (fun i => oracle (n + i)) with
        | (.error e, m) => (.error e, n + m)
        | (.ok patch, m) => (.ok (some (report, patch)), n + m)

/-- Python `len(text.split())`: the number of maximal whitespace-free runs. -/
def countWordsAux : List Char → Bool → Nat
  | [], _ => 0
  | c :: rest, inWord =>
      if c.isWhitespace then countWordsAux rest false
      else (if inWord then 0 else 1) + countWordsAux rest true

def pyWordCount (s : String) : Nat :=
  countWordsAux s.toList false

/-- Python `text.split("\x5cn\x5cn")`: leftmost non-overlapping splitting on
the two-character separator. -/
def splitOnDoubleNlAux : List Char → List Char → List (List Char)
  | [], acc => [acc.reverse]
  | '\n' :: '\n' :: rest, acc => acc.reverse :: splitOnDoubleNlAux rest []
  | c :: rest, acc => splitOnDoubleNlAux rest (c :: acc)

/-- `count_paragraphs` from write_scene.py: split on blank lines and count
the non-blank pieces (`p.strip()` truthiness is "contains a non-whitespace
character"). -/
def count_paragraphs (text : String) : Nat :=
  ((splitOnDoubleNlAux text.toList []).filter
    (fun p => p.dropWhile Char.isWhitespace ≠ [])).length

/-- `validate_draft` from write_scene.py.  The float products
`int(target_words * 0.6)` and `int(target_words * 1.4)` are modelled as the
exact integer floors `6*t/10` and `14*t/10`; no verified statement sits
within one ulp of a band edge. -/
def validate_draft (draft : String) (target_words : Nat) (context : Json) :
    Bool × List String :=
  let text := pyStrip draft
  if text = "" then (false, ["Draft is empty"])
  else
    let word_count := pyWordCount text
    let min_words := 6 * target_words / 10
    let max_words := 14 * target_words / 10
    let issues1 :=
      if word_count < min_words || word_count > max_words then
        ["Word count " ++ toString word_count ++ " outside " ++ toString min_words ++
          "-" ++ toString max_words]
      else []
    let beats := jarr (jget (jget context "ringB" (.obj [])) "beats" (.arr []))
    let beat_count := beats.length
    let paragraph_count := count_paragraphs text
    let issues2 :=
      if beat_count ≠ 0 && paragraph_count < (beat_count + 1) / 2 then
        ["Paragraph count too low for beats"]
      else []
    let issues := issues1 ++ issues2
    (issues.isEmpty, issues)

/-- The draft / retry / expand sequence of `write_scene` (lines 45-59):
each failed validation triggers the next backend call, and the expanded
draft is re-checked by the same `validate_draft`. -/
def write_scene_flow (context : Json) (target : Nat) (oracle : Nat → String) :
    Except (List String) String × Nat :=
  let d1 := oracle 0
  let v1 := validate_draft d1 target context
  if v1.1 then (.ok d1, 1)
  else
    let d2 := oracle 1
    let v2 := validate_draft d2 target context
    if v2.1 then (.ok d2, 2)
    else
      let d3 := oracle 2
      let v3 := validate_draft d3 target context
      if v3.1 then (.ok d3, 3)
      else (.error v3.2, 3)

/-- `write_scene` from write_scene.py with cache and prerequisite checks. -/
def write_scene_stage (draftExists force contextExists : Bool)
    (context : Json) (target : Nat) (oracle : Nat → String) :
    Except String (Option String) × Nat :=
  if draftExists && !force then (.ok none, 0)
  else if !contextExists then (.error "Missing context", 0)
  else
    match write_scene_flow context target oracle with
    | (.ok draft, n) => (.ok (some draft), n)
    | (.error issues, n) =>
        (.error ("Draft failed validation: " ++ String.intercalate "; " issues), n)

/-- The stage wrapper of `build_context` (build_context.py lines 41-61 and
169-181): cache check first, then the required-artifact checks, then the
deterministic ring assembly — abstracted here as the already-assembled
packet, since the ring builders are embedded separately — followed by the
validate-plus-one-repair sub-protocol.  The call counter counts the
repair-protocol's backend calls. -/
def build_context_stage (contextExists force specExists planExists beatsExists : Bool)
    (assembled : Json) (validate : Json → List String)
    (parse : String → Option Json) (oracle : Nat → String) :
    Except String (Option Json) × Nat :=
  if contextExists && !force then (.ok none, 0)
  else if !specExists then (.error "Missing story spec", 0)
  else if !planExists then (.error "Missing scene plan", 0)
  else if !beatsExists then (.error "Missing scene beats", 0)
  else
    if validate assembled = [] then (.ok (some assembled), 0)
    else
      match parse (oracle 0) with
      | none => (.error "LLM response could not be repaired into valid JSON", 1)
      | some repaired =>
          if validate repaired = [] then (.ok (some repaired), 1)
          else (.error "LLM response could not be repaired into valid JSON", 1)

/-- `ensure_writable` from cli.py (lines 51-54): walking the output paths
in order, the first one that exists while force is unset raises
`FileExistsError` naming that path.  A path is modelled as its name plus
an existence flag. -/
def ensure_writable (paths : List (String × Bool)) (force : Bool) : Except String Unit :=
  match paths with
  | [] => .ok ()
  | (name, ex) :: rest =>
      if ex && !force then
        .error ("Refusing to overwrite " ++ name ++ " without --force")
      else ensure_writable rest force

/-- The `seed apply` command (cli.py lines 80-101): `ensure_writable` runs
over the four output paths (resolved plot intent, resolved story spec,
manifest, seed report) before `apply_seeds` does any work, so an existing
output without force is fatal and pre-empts the whole stage; otherwise
the resolved result is written and returned.  The stage makes no
generation call at all; the output-path list and the merge result are
parameters (the path helpers for two of the four outputs are not part of
src/storycodex/paths.py). -/
def seed_apply_stage (output_paths : List (String × Bool)) (force : Bool)
    (resolved : Json) : Except String Json :=
  match ensure_writable output_paths force with
  | .error e => .error e
  | .ok _ => .ok resolved

theorem lockLoop_nil_keywords (items : List Json) :
    lockLoop [] items = items.map normalize_lock := by
  induction items with
  | nil => rfl
  | cons l rest ih => simp [lockLoop, ih]

theorem factLoop_nil_keywords (items : List Json) :
    factLoop [] items = [] := by
  induction items with
  | nil => rfl
  | cons l rest ih => cases l <;> simp [factLoop, ih]

/-- C3: with an empty keyword set — empty cast list and empty location id —
the lock filter passes every lock of the locks artifact through
(normalized), while the fact filter selects nothing at all: the
include-all fallback exists only on the lock side. -/
theorem empty_keywords_all_locks_no_facts (locks facts : Json) (ringB : RingB)
    (hcast : ringB.cast = []) (hloc : ringB.setting.location.id = "") :
    select_relevant_locks locks [] "" = (wrappedItems locks "locks").map normalize_lock ∧
      select_relevant_facts facts ringB = [] := by
  constructor
  · unfold select_relevant_locks lock_keywords
    simp
    exact lockLoop_nil_keywords _
  · unfold select_relevant_facts fact_keywords
    rw [hcast, hloc]
    simp
    exact factLoop_nil_keywords _

/-- Witness for C3: a concrete two-lock artifact is passed through whole
(normalized) while a concrete two-fact artifact filters to nothing. -/
theorem empty_keywords_all_locks_no_facts_witness :
    empty_ringB.cast = [] ∧ empty_ringB.setting.location.id = "" ∧
      (select_relevant_locks
          (.obj [("locks", .arr [.obj [("id", .str "L1"),
            ("statement", .str "Keep the box intact"), ("severity", .str "must")],
            .str "bare lock"])]) [] "" =
        (wrappedItems (.obj [("locks", .arr [.obj [("id", .str "L1"),
            ("statement", .str "Keep the box intact"), ("severity", .str "must")],
            .str "bare lock"])]) "locks").map normalize_lock ∧
        select_relevant_facts (.arr [.str "The dock is wet",
          .obj [("statement", .str "Elias has the key")]]) empty_ringB = []) :=
  ⟨rfl, rfl,
    empty_keywords_all_locks_no_facts
      (.obj [("locks", .arr [.obj [("id", .str "L1"),
        ("statement", .str "Keep the box intact"), ("severity", .str "must")],
        .str "bare lock"])])
      (.arr [.str "The dock is wet", .obj [("statement", .str "Elias has the key")]])
      empty_ringB rfl rfl⟩

/-- C4: each single-ring include mode keeps the selected ring unchanged and
replaces the other two by their canonical empty forms, whose field values
are spelled out literally. -/
theorem apply_include_zeroing (a : RingA) (b : RingB) (c : RingC) :
    apply_include "ringA" a b c = (a, empty_ringB, empty_ringC) ∧
      apply_include "ringB" a b c = (empty_ringA, b, empty_ringC) ∧
      apply_include "ringC" a b c = (empty_ringA, empty_ringB, c) ∧
      empty_ringA =
        { premise := .str "", tone := [], pov := .str "first", tense := .str "past",
          global_constraints := [], style_rules := [] } ∧
      empty_ringB =
        { scene_goal := .str "",
          setting := { location := { id := "", name := "", constraints := [] },
                       time := .str "", mood_tags := [] },
          cast := [], beats := [], continuity_locks := [] } ∧
      empty_ringC =
        { prior_scene_summary := "N/A", open_threads := [], relevant_facts := [],
          glossary := [] } :=
  ⟨rfl, rfl, rfl, rfl, rfl, rfl⟩

/-- C9: any include string outside the four recognized modes falls through
to the final return and leaves all three rings unchanged, exactly like
mode "all". -/
theorem apply_include_unknown_mode (a : RingA) (b : RingB) (c : RingC) (s : String)
    (h1 : s ≠ "all") (h2 : s ≠ "ringA") (h3 : s ≠ "ringB") (h4 : s ≠ "ringC") :
    apply_include s a b c = (a, b, c) ∧
      apply_include s a b c = apply_include "all" a b c := by
  constructor
  · simp [apply_include, h1, h2, h3, h4]
  · simp [apply_include, h1, h2, h3, h4]

/-- Witness for C9 at the unknown mode "bogus". -/
theorem apply_include_unknown_mode_witness :
    ("bogus" ≠ "all") ∧ ("bogus" ≠ "ringA") ∧ ("bogus" ≠ "ringB") ∧ ("bogus" ≠ "ringC") ∧
      (apply_include "bogus" empty_ringA empty_ringB empty_ringC =
          (empty_ringA, empty_ringB, empty_ringC) ∧
        apply_include "bogus" empty_ringA empty_ringB empty_ringC =
          apply_include "all" empty_ringA empty_ringB empty_ringC) :=
  ⟨by decide, by decide, by decide, by decide,
    apply_include_unknown_mode empty_ringA empty_ringB empty_ringC "bogus"
      (by decide) (by decide) (by decide) (by decide)⟩

/-- C10: for every scene plan, beats artifact, optional-artifact table and
locks artifact, ring B's location name equals its location id (the name is
never resolved from any artifact) and its constraints list is empty. -/
theorem build_ringB_location_invariant
    (scene_plan scene_beats : Json) (arts : OptionalArtifacts) (locks : Json) :
    (build_ringB scene_plan scene_beats arts locks).setting.location.name =
        (build_ringB scene_plan scene_beats arts locks).setting.location.id ∧
      (build_ringB scene_plan scene_beats arts locks).setting.location.constraints = [] :=
  ⟨rfl, rfl⟩

/-- C5 (counterexample): the claim counts baseline + derived rules before
deduplication.  An empty story spec yields the 5 baseline rules; a profile
whose horror principles, voice habits and unreliability notes are each the
same string five times derives 16 rules, so 21 > 20 in total — yet after
`append_unique` deduplication only 9 distinct rules remain, so the
persisted list has length 9, not 20. -/
theorem style_rule_cap_counterexample :
    (build_ringA (.obj []) .null).style_rules.length +
        (build_style_rules_from_profile (.obj [("intent", .str "Focus"),
          ("horror_engine", .obj [("principles",
            .arr [.str "Echo3", .str "Echo3", .str "Echo3", .str "Echo3", .str "Echo3"])]),
          ("character_voice", .obj [("habits",
            .arr [.str "Echo", .str "Echo", .str "Echo", .str "Echo", .str "Echo"]),
            ("unreliability",
              .arr [.str "Echo2", .str "Echo2", .str "Echo2", .str "Echo2", .str "Echo2"])])])).length
      = 21 ∧
    (apply_style_profile (build_ringA (.obj []) .null)
        (.obj [("intent", .str "Focus"),
          ("horror_engine", .obj [("principles",
            .arr [.str "Echo3", .str "Echo3", .str "Echo3", .str "Echo3", .str "Echo3"])]),
          ("character_voice", .obj [("habits",
            .arr [.str "Echo", .str "Echo", .str "Echo", .str "Echo", .str "Echo"]),
            ("unreliability",
              .arr [.str "Echo2", .str "Echo2", .str "Echo2", .str "Echo2", .str "Echo2"])])])).style_rules.length
      = 9 := by
  constructor
  · rfl
  · rfl

/-- C5 (amended): when baseline + derived rules still exceed 20 entries
after deduplication, the persisted style_rules list is exactly the first 20
deduplicated entries in append order, hence has length exactly 20. -/
theorem style_rule_cap (ringA : RingA) (profile : Json)
    (h : 20 < (append_unique ringA.style_rules (build_style_rules_from_profile profile)).length) :
    (apply_style_profile ringA profile).style_rules =
        (append_unique ringA.style_rules (build_style_rules_from_profile profile)).take 20 ∧
      (apply_style_profile ringA profile).style_rules.length = 20 := by
  have he : (apply_style_profile ringA profile).style_rules =
      (append_unique ringA.style_rules (build_style_rules_from_profile profile)).take 20 := rfl
  refine ⟨he, ?_⟩
  rw [he, List.length_take]
  omega

/-- Witness for C5's amended theorem: 21 distinct baseline rules and an
empty profile keep 21 deduplicated entries, and the cap truncates to 20. -/
theorem style_rule_cap_witness :
    20 < (append_unique ({ empty_ringA with style_rules :=
        ["r01", "r02", "r03", "r04", "r05", "r06", "r07", "r08", "r09", "r10", "r11",
         "r12", "r13", "r14", "r15", "r16", "r17", "r18", "r19", "r20", "r21"] } : RingA).style_rules
        (build_style_rules_from_profile .null)).length ∧
      ((apply_style_profile ({ empty_ringA with style_rules :=
          ["r01", "r02", "r03", "r04", "r05", "r06", "r07", "r08", "r09", "r10", "r11",
           "r12", "r13", "r14", "r15", "r16", "r17", "r18", "r19", "r20", "r21"] } : RingA)
          .null).style_rules =
        (append_unique ({ empty_ringA with style_rules :=
          ["r01", "r02", "r03", "r04", "r05", "r06", "r07", "r08", "r09", "r10", "r11",
           "r12", "r13", "r14", "r15", "r16", "r17", "r18", "r19", "r20", "r21"] } : RingA).style_rules
          (build_style_rules_from_profile .null)).take 20 ∧
      (apply_style_profile ({ empty_ringA with style_rules :=
          ["r01", "r02", "r03", "r04", "r05", "r06", "r07", "r08", "r09", "r10", "r11",
           "r12", "r13", "r14", "r15", "r16", "r17", "r18", "r19", "r20", "r21"] } : RingA)
          .null).style_rules.length = 20) :=
  ⟨by decide,
    style_rule_cap ({ empty_ringA with style_rules :=
      ["r01", "r02", "r03", "r04", "r05", "r06", "r07", "r08", "r09", "r10", "r11",
       "r12", "r13", "r14", "r15", "r16", "r17", "r18", "r19", "r20", "r21"] } : RingA)
      .null (by decide)⟩

/-- C1 (counterexample): a non-JSON first reply is not always recovered via
a repair call — the Continuity Checker's report generation raises
immediately, with the fatal message "Continuity report is not valid JSON",
after a single backend call and no repair attempt. -/
theorem continuity_nonjson_immediately_fatal :
    check_continuity_stage false false false true true
        (fun _ => none) (fun _ => []) (fun _ => []) (fun _ => "not json") =
      (.error "Continuity report is not valid JSON", 1) := rfl

/-- C1 (amended): the planner stages treat a non-JSON first reply as a
validation failure — plan_beats reports exactly "Response is not valid
JSON" — and recover via one repair call (two backend calls in total, in
plan_spine as well); the Continuity Checker's report and patch
generations instead raise immediately on a non-JSON reply, with one call
and no repair (the patch case after the single successful report call):
repair there applies only to schema-invalid parsed JSON. -/
theorem nonjson_first_reply_handling
    (jsonParse parse parse2 : String → Option Json)
    (schemaErrors vR vP vR2 vP2 : Json → List String)
    (o oc op : Nat → String) (force : Bool) (rep : Json)
    (h1 : jsonParse (o 0) = none)
    (h2 : parse (oc 0) = none)
    (h3 : parse2 (op 0) = some rep)
    (h4 : vR2 rep = [])
    (h5 : parse2 (op 1) = none) :
    (parse_and_validate_beats jsonParse schemaErrors (o 0)).2 =
        ["Response is not valid JSON"] ∧
      (plan_beats_stage false force true true jsonParse schemaErrors o).2 = 2 ∧
      (plan_spine_stage false force true jsonParse schemaErrors o).2 = 2 ∧
      check_continuity_stage false false force true true parse vR vP oc =
        (.error "Continuity report is not valid JSON", 1) ∧
      check_continuity_stage false false force true true parse2 vR2 vP2 op =
        (.error "Patch plan is not valid JSON", 2) := by
  refine ⟨?_, ?_, ?_, ?_, ?_⟩
  · simp [parse_and_validate_beats, h1]
  · unfold plan_beats_stage
    simp [parse_and_validate_beats, h1]
    cases hp : jsonParse (o 1) with
    | none => simp
    | some payload =>
        cases he : schemaErrors payload with
        | nil => simp [he]
        | cons e es => simp [he]
  · unfold plan_spine_stage
    simp [parse_and_validate_spine, h1]
    cases hp : jsonParse (o 1) with
    | none => simp
    | some payload =>
        by_cases he : schemaErrors payload = [] <;> simp [he]
  · unfold check_continuity_stage continuity_report_phase generate_report
    simp [h2]
  · unfold check_continuity_stage continuity_report_phase continuity_patch_phase
      generate_report generate_patch
    simp [h3, h4, h5]

/-- Witness for C1's amended theorem at a concrete non-JSON reply and a
concrete report-then-non-JSON-patch run. -/
theorem nonjson_first_reply_handling_witness :
    ((fun _ => (none : Option Json)) "oops" = none) ∧
      ((fun s => if s = "REPORT" then some (Json.obj []) else none) "REPORT" =
        some (Json.obj [])) ∧
      ((fun s => if s = "REPORT" then some (Json.obj []) else none) "oops" = none) ∧
      ((parse_and_validate_beats (fun _ => none) (fun _ => []) "oops").2 =
          ["Response is not valid JSON"] ∧
        (plan_beats_stage false false true true (fun _ => none) (fun _ => [])
            (fun _ => "oops")).2 = 2 ∧
        (plan_spine_stage false false true (fun _ => none) (fun _ => [])
            (fun _ => "oops")).2 = 2 ∧
        check_continuity_stage false false false true true (fun _ => none)
            (fun _ => []) (fun _ => []) (fun _ => "oops") =
          (.error "Continuity report is not valid JSON", 1) ∧
        check_continuity_stage false false false true true
            (fun s => if s = "REPORT" then some (Json.obj []) else none)
            (fun _ => []) (fun _ => [])
            (fun i => if i = 0 then "REPORT" else "oops") =
          (.error "Patch plan is not valid JSON", 2)) :=
  ⟨rfl, by decide, by decide,
    nonjson_first_reply_handling (fun _ => none)
      (fun _ => none) (fun s => if s = "REPORT" then some (Json.obj []) else none)
      (fun _ => []) (fun _ => []) (fun _ => []) (fun _ => []) (fun _ => [])
      (fun _ => "oops") (fun _ => "oops") (fun i => if i = 0 then "REPORT" else "oops")
      false (Json.obj []) rfl rfl (by decide) rfl (by decide)⟩

/-- C2: with the cache missed and the prerequisites present, an invalid
first reply (non-JSON or schema-violating) followed by an invalid repair
reply makes plan_spine and plan_beats raise the fatal repair error after
exactly two backend calls; and each stage's outcome depends only on the
first two oracle replies, so a third generation call can never occur. -/
theorem repair_escalation_two_calls
    (jsonParse : String → Option Json) (schemaErrors : Json → List String)
    (o o' : Nat → String) (force : Bool)
    (hs1 : parse_and_validate_spine jsonParse schemaErrors (o 0) = none)
    (hs2 : parse_and_validate_spine jsonParse schemaErrors (o 1) = none)
    (hb1 : (parse_and_validate_beats jsonParse schemaErrors (o 0)).2 ≠ [])
    (hb2 : (parse_and_validate_beats jsonParse schemaErrors (o 1)).2 ≠ [])
    (ho0 : o' 0 = o 0) (ho1 : o' 1 = o 1) :
    plan_spine_stage false force true jsonParse schemaErrors o =
        (.error "LLM response could not be repaired into valid JSON", 2) ∧
      plan_beats_stage false force true true jsonParse schemaErrors o =
        (.error "LLM response could not be repaired into valid JSON", 2) ∧
      plan_spine_stage false force true jsonParse schemaErrors o' =
        plan_spine_stage false force true jsonParse schemaErrors o ∧
      plan_beats_stage false force true true jsonParse schemaErrors o' =
        plan_beats_stage false force true true jsonParse schemaErrors o := by
  refine ⟨?_, ?_, ?_, ?_⟩
  · unfold plan_spine_stage
    simp [hs1, hs2]
  · unfold plan_beats_stage
    simp [hb1, hb2]
  · unfold plan_spine_stage
    rw [ho0, ho1]
  · unfold plan_beats_stage
    rw [ho0, ho1]

/-- Witness for C2: the spec's repair-escalation scenario — first reply
non-JSON, second reply parsed but schema-violating. -/
theorem repair_escalation_two_calls_witness :
    (parse_and_validate_spine (fun s => if s = "R2" then some (Json.obj []) else none)
        (fun _ => ["missing field"]) ((fun i => if i = 0 then "R1" else "R2") 0) = none) ∧
      (parse_and_validate_spine (fun s => if s = "R2" then some (Json.obj []) else none)
        (fun _ => ["missing field"]) ((fun i => if i = 0 then "R1" else "R2") 1) = none) ∧
      (plan_spine_stage false false true
          (fun s => if s = "R2" then some (Json.obj []) else none)
          (fun _ => ["missing field"]) (fun i => if i = 0 then "R1" else "R2") =
        (.error "LLM response could not be repaired into valid JSON", 2) ∧
      plan_beats_stage false false true true
          (fun s => if s = "R2" then some (Json.obj []) else none)
          (fun _ => ["missing field"]) (fun i => if i = 0 then "R1" else "R2") =
        (.error "LLM response could not be repaired into valid JSON", 2) ∧
      plan_spine_stage false false true
          (fun s => if s = "R2" then some (Json.obj []) else none)
          (fun _ => ["missing field"]) (fun i => if i = 0 then "R1" else "R2") =
        plan_spine_stage false false true
          (fun s => if s = "R2" then some (Json.obj []) else none)
          (fun _ => ["missing field"]) (fun i => if i = 0 then "R1" else "R2") ∧
      plan_beats_stage false false true true
          (fun s => if s = "R2" then some (Json.obj []) else none)
          (fun _ => ["missing field"]) (fun i => if i = 0 then "R1" else "R2") =
        plan_beats_stage false false true true
          (fun s => if s = "R2" then some (Json.obj []) else none)
          (fun _ => ["missing field"]) (fun i => if i = 0 then "R1" else "R2")) :=
  ⟨by decide, by decide,
    repair_escalation_two_calls
      (fun s => if s = "R2" then some (Json.obj []) else none)
      (fun _ => ["missing field"])
      (fun i => if i = 0 then "R1" else "R2") (fun i => if i = 0 then "R1" else "R2")
      false (by decide) (by decide) (by decide) (by decide) rfl rfl⟩

set_option maxRecDepth 8000 in
/-- C7 (counterexample): with target 100 the acceptance band of
`validate_draft` is [60, 140], not [70, 130]: after two failing drafts an
expanded draft of 65 words — inside [0.6x, 1.4x] but outside the claimed
[0.7x, 1.3x] — is accepted and persisted, not rejected. -/
theorem expand_band_counterexample :
    pyWordCount (String.intercalate " " (List.replicate 65 "w")) = 65 ∧
      65 < 7 * 100 / 10 ∧
      write_scene_stage false false true (.obj []) 100
          (fun i => if i = 2 then String.intercalate " " (List.replicate 65 "w")
            else "x") =
        (.ok (some (String.intercalate " " (List.replicate 65 "w"))), 3) := by
  refine ⟨rfl, by decide, rfl⟩

/-- C7 (amended): the expanded draft is re-validated by the same
`validate_draft` check as the first two attempts — word count within
[int(0.6 x target), int(1.4 x target)] plus the paragraph floor — and the
stage fails fatally exactly when that check fails; the [0.7x, 1.3x] band
appears only inside the expansion prompt's instruction text. -/
theorem expand_draft_same_validation (context : Json) (target : Nat) (o : Nat → String)
    (h1 : (validate_draft (o 0) target context).1 = false)
    (h2 : (validate_draft (o 1) target context).1 = false) :
    write_scene_flow context target o =
      (if (validate_draft (o 2) target context).1 then (.ok (o 2), 3)
       else (.error (validate_draft (o 2) target context).2, 3)) := by
  unfold write_scene_flow
  simp [h1, h2]

/-- Witness for C7's amended theorem: three short drafts all fail and the
stage ends in the fatal validation error after the third call. -/
theorem expand_draft_same_validation_witness :
    ((validate_draft ((fun _ => "x") 0) 100 (.obj [])).1 = false) ∧
      ((validate_draft ((fun _ => "x") 1) 100 (.obj [])).1 = false) ∧
      write_scene_flow (.obj []) 100 (fun _ => "x") =
        (if (validate_draft ((fun _ => "x") 2) 100 (.obj [])).1
         then (.ok ((fun _ => "x") 2), 3)
         else (.error (validate_draft ((fun _ => "x") 2) 100 (.obj [])).2, 3)) :=
  ⟨by decide, by decide,
    expand_draft_same_validation (.obj []) 100 (fun _ => "x") (by decide) (by decide)⟩

/-- C8 (counterexample): a stage invoked while its output artifact exists
and force is unset does not raise — it returns the successful silent skip
(`None`) with zero backend calls, here shown concretely for all five
embedded stages. -/
theorem cache_hit_counterexample :
    plan_spine_stage true false true (fun _ => none) (fun _ => []) (fun _ => "") =
        (.ok none, 0) ∧
      plan_beats_stage true false true true (fun _ => none) (fun _ => []) (fun _ => "") =
        (.ok none, 0) ∧
      write_scene_stage true false true (.obj []) 1000 (fun _ => "") = (.ok none, 0) ∧
      check_continuity_stage true true false true true (fun _ => none) (fun _ => [])
        (fun _ => []) (fun _ => "") = (.ok none, 0) ∧
      build_context_stage true false true true true (.obj []) (fun _ => [])
        (fun _ => none) (fun _ => "") = (.ok none, 0) :=
  ⟨rfl, rfl, rfl, rfl, rfl⟩

/-- `ensure_writable` errors at the first existing path: any prefix of
absent outputs is walked past, and the first existing one names the fatal
refusal message. -/
theorem ensure_writable_first_existing (post : List (String × Bool)) (name : String) :
    ∀ pre : List (String × Bool), (∀ p ∈ pre, p.2 = false) →
      ensure_writable (pre ++ (name, true) :: post) false =
        .error ("Refusing to overwrite " ++ name ++ " without --force") := by
  intro pre
  induction pre with
  | nil => intro _; simp [ensure_writable]
  | cons p rest ih =>
    intro hpre
    have hp : p.2 = false := hpre p (by simp)
    have hrest : ∀ q ∈ rest, q.2 = false := fun q hq => hpre q (by simp [hq])
    cases p with
    | mk pn pe =>
      simp at hp
      subst hp
      simpa [ensure_writable] using ih hrest

/-- C8 (amended): the generation stages — spine/beat planners, scene
writer, continuity checker, context builder — invoked while their output
artifact exists without the force flag return early with no output and no
error: a silent cache skip that pre-empts every generation call (zero
backend calls), for every oracle and validator.  Seed Resolution alone
behaves as the claim states: `seed apply`'s `ensure_writable` raises the
fatal "Refusing to overwrite ... without --force" error at its first
existing output path, before any resolution work. -/
theorem cache_hit_stage_behavior (specExists planExists beatsExists contextExists
      proseExists : Bool)
    (jsonParse parse : String → Option Json)
    (schemaErrors vR vP validate : Json → List String)
    (context assembled resolved : Json) (target : Nat) (o : Nat → String)
    (pre post : List (String × Bool)) (name : String)
    (hpre : ∀ p ∈ pre, p.2 = false) :
    plan_spine_stage true false specExists jsonParse schemaErrors o = (.ok none, 0) ∧
      plan_beats_stage true false specExists planExists jsonParse schemaErrors o =
        (.ok none, 0) ∧
      write_scene_stage true false contextExists context target o = (.ok none, 0) ∧
      check_continuity_stage true true false contextExists proseExists parse vR vP o =
        (.ok none, 0) ∧
      build_context_stage true false specExists planExists beatsExists assembled
        validate parse o = (.ok none, 0) ∧
      seed_apply_stage (pre ++ (name, true) :: post) false resolved =
        .error ("Refusing to overwrite " ++ name ++ " without --force") := by
  refine ⟨rfl, rfl, rfl, rfl, rfl, ?_⟩
  unfold seed_apply_stage
  rw [ensure_writable_first_existing post name pre hpre]

/-- Witness for C8's amended theorem: with the seed report already on disk
and the other outputs absent, `seed apply` refuses with the exact fatal
message while the generation stages silently skip. -/
theorem cache_hit_stage_behavior_witness :
    (∀ p ∈ [("artifacts/inputs/story_spec.json", false)], p.2 = false) ∧
      (plan_spine_stage true false true (fun _ => none) (fun _ => []) (fun _ => "") =
          (.ok none, 0) ∧
        plan_beats_stage true false true true (fun _ => none) (fun _ => [])
          (fun _ => "") = (.ok none, 0) ∧
        write_scene_stage true false true (.obj []) 1000 (fun _ => "") = (.ok none, 0) ∧
        check_continuity_stage true true false true true (fun _ => none) (fun _ => [])
          (fun _ => []) (fun _ => "") = (.ok none, 0) ∧
        build_context_stage true false true true true (.obj []) (fun _ => [])
          (fun _ => none) (fun _ => "") = (.ok none, 0) ∧
        seed_apply_stage ([("artifacts/inputs/story_spec.json", false)] ++
            ("out/seed_report.json", true) :: []) false (.obj []) =
          .error ("Refusing to overwrite " ++ "out/seed_report.json" ++
            " without --force")) :=
  ⟨by decide,
    cache_hit_stage_behavior true true true true true (fun _ => none) (fun _ => none)
      (fun _ => []) (fun _ => []) (fun _ => []) (fun _ => []) (.obj []) (.obj [])
      (.obj []) 1000 (fun _ => "") [("artifacts/inputs/story_spec.json", false)] []
      "out/seed_report.json" (by decide)⟩

end StoryCodex
